import Mathlib

/-!
Verification of the TCP+JSON session handling in the ESP-32 firmware
repository.  The development shallowly embeds three components:

* `Esp32Led` — the multi-client LED server
  (`Esp-32_LED/src/CommunicationModule.cpp` together with the LED-related
  parts of `HardwareModule.cpp`).  Machine `unsigned long` arithmetic on
  `millis()` values is modelled on `Nat` with explicit reduction mod `2 ^ 32`
  where the C code can wrap.  Network transports are modelled by a
  `connected` flag plus an explicit list of output actions; JSON
  (de)serialization is external library code (ArduinoJson) and is modelled
  by a structured message type carrying exactly the fields the firmware
  reads and writes, except for lines the firmware prints as literal strings,
  which are kept as literal strings.

* `ServoServer` — the single-client four-servo server
  (`servo_server/src/main.cpp`), whose responses are literal strings.

* `QtClient` — the Qt desktop client
  (`Robotarm with 1 servo/Qt client/esp32client.cpp`).  Qt's JSON parser is
  external code and is taken as a parameter of the receive path.
-/

namespace Esp32Led

/-- `MAX_CLIENTS` from `CommunicationModule.h`. -/
def MAX_CLIENTS : Nat := 5

/-- `HEARTBEAT_TIMEOUT` (milliseconds) from `CommunicationModule.h`. -/
def HEARTBEAT_TIMEOUT : Nat := 30000

/-- `UPDATE_INTERVAL` (milliseconds) from `CommunicationModule.h`. -/
def UPDATE_INTERVAL : Nat := 1000

/-- the shared secret `auth_password` from `CommunicationModule.h`. -/
def auth_password : String := "IoTDevice2024"

/-- `ANALOG_SAMPLES` from `HardwareModule.h`. -/
def ANALOG_SAMPLES : Nat := 20

/-- Unsigned 32-bit subtraction `a - b`, as computed by the C expression
`millis() - lastHeartbeat` on `unsigned long` operands. -/
def usub32 (a b : Nat) : Nat :=
  (a % 2 ^ 32 + (2 ^ 32 - b % 2 ^ 32)) % 2 ^ 32

/-- State owned by `HardwareModule` that the communication module can read or
write: the five LED pin levels (written by `setLED`, read back by
`getLEDState` via `digitalRead`), the five debounced button states, and the
smoothed analog accumulator `analogTotal`. -/
structure HardwareState where
  leds : List Bool
  buttonStates : List Bool
  analogTotal : Nat
deriving DecidableEq, Repr

/-- `HardwareModule::setLED`: guarded write of one LED pin. -/
def setLED (hw : HardwareState) (ledNumber : Int) (state : Bool) : HardwareState :=
  if 0 ≤ ledNumber ∧ ledNumber < 5 then
    { hw with leds := hw.leds.set ledNumber.toNat state }
  else hw

/-- `HardwareModule::setAllLEDs`: `setLED(i, state)` for `i = 0..4`. -/
def setAllLEDs (hw : HardwareState) (state : Bool) : HardwareState :=
  (List.range 5).foldl (fun h i => setLED h (i : Int) state) hw

/-- `HardwareModule::getLEDState`: guarded read of one LED pin. -/
def getLEDState (hw : HardwareState) (ledNumber : Int) : Bool :=
  if 0 ≤ ledNumber ∧ ledNumber < 5 then hw.leds.getD ledNumber.toNat false
  else false

/-- `HardwareModule::getButtonState`: guarded read of one debounced button. -/
def getButtonState (hw : HardwareState) (buttonNumber : Int) : Bool :=
  if 0 ≤ buttonNumber ∧ buttonNumber < 5 then hw.buttonStates.getD buttonNumber.toNat false
  else false

/-- `HardwareModule::getAnalogValue`: `analogTotal / ANALOG_SAMPLES`
(C integer division on non-negative values). -/
def getAnalogValue (hw : HardwareState) : Nat :=
  hw.analogTotal / ANALOG_SAMPLES

/-- `HardwareModule::getAnalogVoltage`: `getAnalogValue() * 3.3 / 4095.0`,
with the C float arithmetic modelled as the exact rational value. -/
def getAnalogVoltage (hw : HardwareState) : Rat :=
  (getAnalogValue hw : Rat) * 33 / 10 / 4095

/-- `HardwareModule::getAnalogPercent`: Arduino `map(v, 0, 4095, 0, 100)`,
i.e. `v * 100 / 4095` for `v ≥ 0`. -/
def getAnalogPercent (hw : HardwareState) : Nat :=
  getAnalogValue hw * 100 / 4095

/-- One entry of the `leds` array in the status document. -/
structure LedEntry where
  id : Nat
  state : Bool
deriving DecidableEq, Repr

/-- One entry of the `buttons` array in the status document. -/
structure ButtonEntry where
  id : Nat
  pressed : Bool
deriving DecidableEq, Repr

/-- The `potentiometer` object in the status document. -/
structure PotEntry where
  raw : Nat
  voltage : Rat
  percent : Nat
deriving DecidableEq, Repr

/-- The body of the status document built by `createStatusJson`. -/
structure PeripheralSnapshot where
  leds : List LedEntry
  buttons : List ButtonEntry
  potentiometer : PotEntry
deriving DecidableEq, Repr

/-- A line written to a transport.  ArduinoJson serialization of a document
is injective on the documents this firmware builds, so a serialized document
is modelled by the document itself; the server-full rejection is printed as a
literal string in the source and is kept as one here. -/
inductive WireMsg where
  | raw (line : String)
  | response (status message : String) (timestamp : Nat)
  | statusDoc (snap : PeripheralSnapshot) (timestamp : Nat)
deriving DecidableEq, Repr

/-- The timestamp field of a wire message, when the message has one. -/
def timestampOf : WireMsg → Option Nat
  | WireMsg.raw _ => none
  | WireMsg.response _ _ t => some t
  | WireMsg.statusDoc _ t => some t

/-- Destination of an output action: an existing slot or the just-accepted
connection that never got a slot. -/
inductive Dest where
  | slot (i : Nat)
  | newConn
deriving DecidableEq, Repr

/-- Observable transport actions of one firmware operation, in program
order: `println` of a line, or `stop()` of the freshly accepted connection
(`stop()` of a slotted client is recorded in its `connected` field). -/
inductive OutAction where
  | write (d : Dest) (msg : WireMsg)
  | closeConn (d : Dest)
deriving DecidableEq, Repr

/-- `ClientInfo` from `CommunicationModule.h`; the `WiFiClient` member is
modelled by its `connected()` observation. -/
structure ClientInfo where
  connected : Bool
  authenticated : Bool
  lastHeartbeat : Nat
  clientId : String
  active : Bool
deriving DecidableEq, Repr

/-- The value of an unused slot, as set by the constructor and `closeClient`. -/
def emptyClient : ClientInfo :=
  { connected := false, authenticated := false, lastHeartbeat := 0,
    clientId := "", active := false }

/-- State of `CommunicationModule` relevant to session handling, plus the
hardware state it mutates through its `HardwareModule*`. -/
structure ServerState where
  clients : List ClientInfo
  activeClients : Int
  hardware : HardwareState
deriving DecidableEq, Repr

/-- `clients[i]` (the source only indexes with `0 ≤ i < MAX_CLIENTS`). -/
def getClient (st : ServerState) (i : Nat) : ClientInfo :=
  st.clients.getD i emptyClient

/-- The parsed JSON request document, with the fields the firmware reads:
`jsonDoc["command"]`, `jsonDoc["password"]`, `jsonDoc["led"]`,
`jsonDoc["state"]`. -/
structure JsonMsg where
  command : String
  password : String
  led : Int
  state : Bool
deriving DecidableEq, Repr

/-- `CommunicationModule::createResponseJson`: a document with `status`,
`message` and `timestamp = millis()`. -/
def createResponseJson (status message : String) (now : Nat) : WireMsg :=
  WireMsg.response status message now

/-- `CommunicationModule::createStatusJson`: the status document with
`timestamp = millis()`, the five LED states, the five button states and the
potentiometer block. -/
def createStatusJson (hw : HardwareState) (now : Nat) : WireMsg :=
  WireMsg.statusDoc
    { leds := (List.range 5).map fun i => { id := i + 1, state := getLEDState hw (i : Int) }
      buttons := (List.range 5).map fun i => { id := i + 1, pressed := getButtonState hw (i : Int) }
      potentiometer :=
        { raw := getAnalogValue hw, voltage := getAnalogVoltage hw,
          percent := getAnalogPercent hw } }
    now

/-- `CommunicationModule::sendResponse`: `println` to slot `i` only when the
slot is active and its transport still connected. -/
def sendResponse (st : ServerState) (i : Nat) (msg : WireMsg) : List OutAction :=
  if (getClient st i).active && (getClient st i).connected then
    [OutAction.write (Dest.slot i) msg]
  else []

/-- `CommunicationModule::sendAuthChallenge`. -/
def sendAuthChallenge (st : ServerState) (i : Nat) (now : Nat) : List OutAction :=
  sendResponse st i
    (createResponseJson "auth_required"
      "Send authentication: \x7b\"command\":\"auth\",\"password\":\"your_password\"\x7d" now)

/-- `CommunicationModule::authenticateClient`: exact string comparison with
the shared secret. -/
def authenticateClient (password : String) : Bool :=
  password == auth_password

/-- The scan of `findFreeClientSlot`, carrying the index of the head. -/
def findFreeAux : List ClientInfo → Nat → Option Nat
  | [], _ => none
  | c :: rest, i => if !c.active then some i else findFreeAux rest (i + 1)

/-- `CommunicationModule::findFreeClientSlot`: first slot with
`!clients[i].active`, `-1` (here `none`) when every slot is taken. -/
def findFreeClientSlot (clients : List ClientInfo) : Option Nat :=
  findFreeAux clients 0

/-- The literal line printed on a full server. -/
def serverFullLine : String :=
  "\x7b\"status\":\"error\",\"message\":\"Server full\"\x7d"

/-- `CommunicationModule::handleNewClients`, for a tick on which
`server.available()` did (`arrival = true`) or did not return a fresh
connection. -/
def handleNewClients (st : ServerState) (arrival : Bool) (now : Nat) :
    ServerState × List OutAction :=
  if arrival then
    match findFreeClientSlot st.clients with
    | some slot =>
        let c : ClientInfo :=
          { connected := true, active := true, authenticated := false,
            lastHeartbeat := now, clientId := "Client_" ++ toString (slot + 1) }
        let st1 : ServerState :=
          { st with clients := st.clients.set slot c,
                    activeClients := st.activeClients + 1 }
        (st1, sendAuthChallenge st1 slot now)
    | none =>
        (st, [OutAction.write Dest.newConn (WireMsg.raw serverFullLine),
              OutAction.closeConn Dest.newConn])
  else (st, [])

/-- `CommunicationModule::closeClient`: guarded by `clients[i].active`;
stops the transport and clears the slot. -/
def closeClient (st : ServerState) (i : Nat) : ServerState :=
  if (getClient st i).active then
    { st with
      clients := st.clients.set i
        { getClient st i with
            connected := false, active := false, authenticated := false,
            clientId := "" },
      activeClients := st.activeClients - 1 }
  else st

/-- The eviction condition of `removeInactiveClients`:
`!clients[i].client.connected() || (millis() - clients[i].lastHeartbeat > HEARTBEAT_TIMEOUT)`. -/
def clientInactive (c : ClientInfo) (now : Nat) : Bool :=
  !c.connected || decide (usub32 now c.lastHeartbeat > HEARTBEAT_TIMEOUT)

/-- One iteration of the `removeInactiveClients` loop body for slot `i`. -/
def reapSlot (now : Nat) (st : ServerState) (i : Nat) : ServerState :=
  if (getClient st i).active && clientInactive (getClient st i) now then
    closeClient st i
  else st

/-- `CommunicationModule::removeInactiveClients`: the loop over all slots. -/
def removeInactiveClients (st : ServerState) (now : Nat) : ServerState :=
  (List.range MAX_CLIENTS).foldl (reapSlot now) st

/-- `CommunicationModule::sendDataToClients`: build the status document once,
then `println` the same value to every slot that is active, authenticated and
still connected. -/
def sendDataToClients (st : ServerState) (now : Nat) : List OutAction :=
  let statusJson := createStatusJson st.hardware now
  ((List.range MAX_CLIENTS).filter fun i =>
      (getClient st i).active && (getClient st i).authenticated &&
        (getClient st i).connected).map
    fun i => OutAction.write (Dest.slot i) statusJson

/-- `CommunicationModule::processClientMessage` for a line whose
`deserializeJson` result is `parsed` (`none` on a parse error). -/
def processClientMessage (st : ServerState) (clientIndex : Nat)
    (parsed : Option JsonMsg) (now : Nat) : ServerState × List OutAction :=
  match parsed with
  | none => (st, sendResponse st clientIndex (createResponseJson "error" "Invalid JSON" now))
  | some doc =>
    let command := doc.command
    let c := getClient st clientIndex
    if !c.authenticated then
      if command == "auth" then
        if authenticateClient doc.password then
          let st1 : ServerState :=
            { st with clients := st.clients.set clientIndex { c with authenticated := true } }
          (st1, sendResponse st1 clientIndex (createResponseJson "success" "Authenticated" now))
        else
          (st, sendResponse st clientIndex (createResponseJson "error" "Invalid password" now))
      else
        (st, sendResponse st clientIndex (createResponseJson "error" "Authentication required" now))
    else
      if command == "set_led" then
        let ledNum := doc.led
        let state := doc.state
        if 1 ≤ ledNum ∧ ledNum ≤ 5 then
          let st1 : ServerState := { st with hardware := setLED st.hardware (ledNum - 1) state }
          (st1, sendResponse st1 clientIndex (createResponseJson "success"
            ("LED " ++ toString ledNum ++ " set to " ++ (if state then "ON" else "OFF")) now))
        else
          (st, sendResponse st clientIndex
            (createResponseJson "error" "Invalid LED number (1-5)" now))
      else if command == "set_all_leds" then
        let st1 : ServerState := { st with hardware := setAllLEDs st.hardware doc.state }
        (st1, sendResponse st1 clientIndex (createResponseJson "success"
          ("All LEDs set to " ++ (if doc.state then "ON" else "OFF")) now))
      else if command == "get_status" then
        (st, sendResponse st clientIndex (createStatusJson st.hardware now))
      else if command == "ping" then
        (st, sendResponse st clientIndex (createResponseJson "success" "pong" now))
      else
        (st, sendResponse st clientIndex (createResponseJson "error" "Unknown command" now))

/-- The `handleClientMessages` loop body for slot `i` on a tick where a
non-empty line is pending on that slot: guarded by
`clients[i].active && clients[i].client.connected()`, it refreshes
`lastHeartbeat` and dispatches the parsed line. -/
def handleClientMessage (st : ServerState) (i : Nat) (parsed : Option JsonMsg)
    (now : Nat) : ServerState × List OutAction :=
  if (getClient st i).active && (getClient st i).connected then
    let st1 : ServerState :=
      { st with clients := st.clients.set i { getClient st i with lastHeartbeat := now } }
    processClientMessage st1 i parsed now
  else (st, [])

/-- Every way the single control loop can touch the session table in one
tick: an accept attempt, a pending message on one slot, a broadcast tick, a
reaper tick, or the peer dropping a transport. -/
inductive ServerEvent where
  | newConnection (arrival : Bool)
  | messageFrom (i : Nat) (parsed : Option JsonMsg)
  | broadcastTick
  | reaperTick
  | transportDrop (i : Nat)
deriving DecidableEq, Repr

/-- One step of the server, dispatching on the event. -/
def stepServer (st : ServerState) (e : ServerEvent) (now : Nat) :
    ServerState × List OutAction :=
  match e with
  | ServerEvent.newConnection arrival => handleNewClients st arrival now
  | ServerEvent.messageFrom i parsed => handleClientMessage st i parsed now
  | ServerEvent.broadcastTick => (st, sendDataToClients st now)
  | ServerEvent.reaperTick => (removeInactiveClients st now, [])
  | ServerEvent.transportDrop i =>
      ({ st with clients := st.clients.set i { getClient st i with connected := false } }, [])

end Esp32Led

namespace ServoServer

/-- `requiredPassword` from `servo_server/src/main.cpp`. -/
def requiredPassword : String := "IoTDevice2024"

/-- `NUM_SERVOS` from `servo_server/src/main.cpp`. -/
def NUM_SERVOS : Nat := 4

/-- State of the single-client servo server: the one `WiFiClient` (modelled
by its `connected()` observation), the global `clientAuthenticated` flag and
the four servo angles. -/
structure ServoState where
  connected : Bool
  clientAuthenticated : Bool
  servos : List Int
deriving DecidableEq, Repr

/-- The parsed request document, with the fields the servo server reads:
`doc["command"]`, `doc["password"]`, `doc["servo_index"]`, `doc["angle"]`. -/
structure ServoDoc where
  command : String
  password : String
  servo_index : Int
  angle : Int
deriving DecidableEq, Repr

/-- The body of `loop()` in `servo_server/src/main.cpp` for one available
line whose `deserializeJson` result is `parsed`; every response of this
server is a literal string, returned here verbatim.  On a failed `auth` the
server prints the error and then calls `client.stop()`. -/
def processLine (st : ServoState) (parsed : Option ServoDoc) :
    ServoState × List String :=
  match parsed with
  | none => (st, ["\x7b\"status\":\"error\",\"message\":\"Invalid JSON\"\x7d"])
  | some doc =>
    if doc.command == "auth" then
      if doc.password == requiredPassword then
        ({ st with clientAuthenticated := true },
          ["\x7b\"status\":\"success\",\"message\":\"Authenticated\"\x7d"])
      else
        ({ st with connected := false },
          ["\x7b\"status\":\"error\",\"message\":\"Authentication failed\"\x7d"])
    else if doc.command == "set_servo" then
      if st.clientAuthenticated then
        if 0 ≤ doc.servo_index ∧ doc.servo_index < (NUM_SERVOS : Int) ∧
            0 ≤ doc.angle ∧ doc.angle ≤ 180 then
          ({ st with servos := st.servos.set doc.servo_index.toNat doc.angle },
            ["\x7b\"status\":\"success\"\x7d"])
        else
          (st, ["\x7b\"status\":\"error\",\"message\":\"Invalid servo index or angle\"\x7d"])
      else
        (st, ["\x7b\"status\":\"error\",\"message\":\"Not authenticated\"\x7d"])
    else (st, [])

/-- Whether a character list starts with the given pattern. -/
def startsWith : List Char → List Char → Bool
  | _, [] => true
  | [], _ :: _ => false
  | c :: cs, p :: ps => c = p && startsWith cs ps

/-- Whether a character list contains the given pattern as a contiguous
substring. -/
def hasSubstr : List Char → List Char → Bool
  | [], p => startsWith [] p
  | c :: t, p => startsWith (c :: t) p || hasSubstr t p

/-- Whether a literal response line carries a `"timestamp"` field. -/
def containsTimestamp (s : String) : Bool :=
  hasSubstr s.toList "\"timestamp\"".toList

end ServoServer

namespace QtClient

/-- State of `ESP32Client`: the socket (modelled by whether its state is
`ConnectedState`), the `authenticated` flag and the line-reassembly
`messageBuffer` (kept as a character list). -/
structure ClientState where
  socketConnected : Bool
  authenticated : Bool
  messageBuffer : List Char
deriving DecidableEq, Repr

/-- A JSON object written by `sendMessage`, with the fields `controlServo`
puts in it. -/
structure OutMessage where
  command : String
  angle : Int
deriving DecidableEq, Repr

/-- A parsed inbound JSON object, with the fields `processMessage` reads:
whether it `contains("status")`, and the `status` and `message` strings. -/
structure QObj where
  hasStatus : Bool
  status : String
  message : String
deriving DecidableEq, Repr

/-- Observable effects of one client operation, in program order: socket
writes, `errorOccurred` signals, `connectionStateChanged` signals. -/
structure Effects where
  writes : List OutMessage
  errors : List String
  connChanges : List Bool
deriving DecidableEq, Repr

/-- No observable effect. -/
def noEffects : Effects :=
  { writes := [], errors := [], connChanges := [] }

/-- Concatenation of effect records, preserving per-kind order. -/
def Effects.app (a b : Effects) : Effects :=
  { writes := a.writes ++ b.writes, errors := a.errors ++ b.errors,
    connChanges := a.connChanges ++ b.connChanges }

/-- `ESP32Client::isConnected`: socket connected and authenticated. -/
def isConnected (st : ClientState) : Bool :=
  st.socketConnected && st.authenticated

/-- `ESP32Client::sendMessage`: write one serialized line unless the socket
is not in `ConnectedState`. -/
def sendMessage (st : ClientState) (m : OutMessage) : List OutMessage :=
  if st.socketConnected then [m] else []

/-- `ESP32Client::controlServo`: silently dropped unless `isConnected()`;
otherwise sends one `set_servo` message with the given angle. -/
def controlServo (st : ClientState) (angle : Int) : ClientState × Effects :=
  if !isConnected st then (st, noEffects)
  else
    (st, { noEffects with
             writes := sendMessage st { command := "set_servo", angle := angle } })

/-- `ESP32Client::processMessage`: first `success` response sets
`authenticated` and signals the change; an `error` response emits
`errorOccurred` and, while not yet authenticated, disconnects the socket. -/
def processMessage (st : ClientState) (m : QObj) : ClientState × Effects :=
  if m.hasStatus then
    if m.status == "success" && !st.authenticated then
      ({ st with authenticated := true }, { noEffects with connChanges := [true] })
    else if m.status == "error" then
      if !st.authenticated then
        ({ st with socketConnected := false },
          { noEffects with errors := ["ESP32 Error: " ++ m.message] })
      else
        (st, { noEffects with errors := ["ESP32 Error: " ++ m.message] })
    else (st, noEffects)
  else (st, noEffects)

/-- Splits a buffer at its first newline: `messageBuffer.indexOf('\n')`
together with the `left`/`remove` pair in the source loop.  Returns `none`
when the buffer holds no newline. -/
def breakAtNewline : List Char → Option (List Char × List Char)
  | [] => none
  | c :: rest =>
    if c = '\n' then some ([], rest)
    else (breakAtNewline rest).map fun p => (c :: p.1, p.2)

/-- `QString::trimmed` on a character list. -/
def trimmed (l : List Char) : List Char :=
  ((l.dropWhile Char.isWhitespace).reverse.dropWhile Char.isWhitespace).reverse

theorem breakAtNewline_rest_length {buf line rest : List Char}
    (h : breakAtNewline buf = some (line, rest)) : rest.length < buf.length := by
  induction buf generalizing line rest with
  | nil => simp [breakAtNewline] at h
  | cons c tail ih =>
    simp only [breakAtNewline] at h
    by_cases hc : c = '\n'
    · simp [hc] at h
      simp [← h.2]
    · simp only [hc, if_false, Option.map_eq_some'] at h
      obtain ⟨p, hp, hpe⟩ := h
      have hrest : rest = p.2 := congrArg Prod.snd hpe.symm
      subst hrest
      have := ih (by simpa using hp)
      simpa using Nat.lt_succ_of_lt this

/-- The `while (messageBuffer.contains('\n'))` loop of
`ESP32Client::onDataReceived`: consume complete lines in order, skip empty
lines, hand each line that parses as a JSON object to `processMessage`, and
return the leftover buffer.  The Qt JSON parser is external code, passed in
as `parse` (returning `some` exactly when parsing succeeds with an object). -/
def processBuffer (parse : List Char → Option QObj) (st : ClientState)
    (buf : List Char) : ClientState × List Char × Effects :=
  match h : breakAtNewline buf with
  | none => (st, buf, noEffects)
  | some (line, rest) =>
    have : rest.length < buf.length := breakAtNewline_rest_length h
    let l := trimmed line
    if l = [] then processBuffer parse st rest
    else
      match parse l with
      | none => processBuffer parse st rest
      | some obj =>
        let r1 := processMessage st obj
        let r2 := processBuffer parse r1.1 rest
        (r2.1, r2.2.1, r1.2.app r2.2.2)
termination_by buf.length

/-- `ESP32Client::onDataReceived`: append the read data to the buffer, run
the line loop, keep the trailing partial line in the buffer. -/
def onDataReceived (parse : List Char → Option QObj) (st : ClientState)
    (data : List Char) : ClientState × Effects :=
  let r := processBuffer parse st (st.messageBuffer ++ data)
  ({ r.1 with messageBuffer := r.2.1 }, r.2.2)

/-- Modelled from the spec: the complete (newline-terminated) lines of a
buffer, in order, together with the trailing partial line. -/
def completeLines : List Char → List (List Char) × List Char
  | [] => ([], [])
  | c :: rest =>
    if c = '\n' then
      let p := completeLines rest
      ([] :: p.1, p.2)
    else
      match completeLines rest with
      | ([], rem) => ([], c :: rem)
      | (l :: ls, rem) => ((c :: l) :: ls, rem)

/-- Modelled from the spec: handling of one complete line — trim it, discard
it silently when empty or unparseable, otherwise process it. -/
def lineHandled (parse : List Char → Option QObj) (acc : ClientState × Effects)
    (line : List Char) : ClientState × Effects :=
  let t := trimmed line
  if t = [] then acc
  else
    match parse t with
    | none => acc
    | some obj =>
      let r := processMessage acc.1 obj
      (r.1, acc.2.app r.2)

/-- Modelled from the spec: the receive path as the claim describes it —
split the buffered data into complete lines and a trailing partial line,
fold the line handler over the complete lines in arrival order, and retain
the partial line. -/
def specLinewise (parse : List Char → Option QObj) (st : ClientState)
    (data : List Char) : ClientState × Effects :=
  let p := completeLines (st.messageBuffer ++ data)
  let r := p.1.foldl (lineHandled parse) (st, noEffects)
  ({ r.1 with messageBuffer := p.2 }, r.2)

end QtClient

namespace Esp32Led

theorem getD_set_of_ne {α : Type _} (l : List α) {i j : Nat} (h : i ≠ j) (a d : α) :
    (l.set i a).getD j d = l.getD j d := by
  simp [List.getElem?_set_ne h]

theorem getD_set_self {α : Type _} (l : List α) {i : Nat} (h : i < l.length) (a d : α) :
    (l.set i a).getD i d = a := by
  simp [List.getElem?_set_self h]

theorem getClient_lt_of_active {st : ServerState} {i : Nat}
    (h : (getClient st i).active = true) : i < st.clients.length := by
  by_contra hge
  push_neg at hge
  rw [getClient, List.getD_eq_getElem?_getD, List.getElem?_eq_none hge] at h
  simp [emptyClient] at h

theorem findFreeAux_none_of_all {l : List ClientInfo} {k : Nat}
    (h : ∀ c ∈ l, c.active = true) : findFreeAux l k = none := by
  induction l generalizing k with
  | nil => rfl
  | cons c rest ih =>
    have hc : c.active = true := h c (by simp)
    simp only [findFreeAux, hc]
    exact ih fun x hx => h x (by simp [hx])

theorem findFreeAux_some {l : List ClientInfo} {k j : Nat}
    (h : findFreeAux l k = some j) :
    k ≤ j ∧ j - k < l.length ∧ (l.getD (j - k) emptyClient).active = false := by
  induction l generalizing k with
  | nil => simp [findFreeAux] at h
  | cons c rest ih =>
    simp only [findFreeAux] at h
    by_cases hc : c.active
    · simp only [hc, Bool.not_true, Bool.false_eq_true, if_false] at h
      obtain ⟨hk, hlt, hget⟩ := ih h
      refine ⟨by omega, by simp; omega, ?_⟩
      have : j - k = (j - (k + 1)) + 1 := by omega
      rw [this]
      simpa using hget
    · simp only [hc, Bool.not_false, if_true, Option.some.injEq] at h
      subst h
      simp [Bool.eq_false_iff.mpr hc]

theorem findFreeClientSlot_some {l : List ClientInfo} {j : Nat}
    (h : findFreeClientSlot l = some j) :
    j < l.length ∧ (l.getD j emptyClient).active = false := by
  have := findFreeAux_some (k := 0) h
  simpa using this

theorem findFreeAux_ne_none {l : List ClientInfo} {k i : Nat}
    (hi : i < l.length) (h : (l.getD i emptyClient).active = false) :
    findFreeAux l k ≠ none := by
  induction l generalizing k i with
  | nil => simp at hi
  | cons c rest ih =>
    simp only [findFreeAux]
    by_cases hc : c.active
    · simp only [hc, Bool.not_true, Bool.false_eq_true, if_false]
      cases i with
      | zero => simp [hc] at h
      | succ i' => exact ih (by simpa using hi) (by simpa using h)
    · simp [hc]

theorem closeClient_getClient_ne (st : ServerState) {i j : Nat} (h : i ≠ j) :
    getClient (closeClient st j) i = getClient st i := by
  unfold closeClient
  split
  · simp only [getClient]
    exact getD_set_of_ne _ (fun he => h he.symm) _ _
  · rfl

theorem closeClient_getClient_self (st : ServerState) {i : Nat}
    (h : (getClient st i).active = true) :
    getClient (closeClient st i) i =
      { getClient st i with
          connected := false, active := false, authenticated := false, clientId := "" } := by
  unfold closeClient
  rw [if_pos h]
  simp only [getClient]
  exact getD_set_self _ (getClient_lt_of_active h) _ _

theorem closeClient_of_inactive {st : ServerState} {i : Nat}
    (h : (getClient st i).active = false) : closeClient st i = st := by
  unfold closeClient
  rw [if_neg (by simp [h])]

theorem reapSlot_getClient_ne (now : Nat) (st : ServerState) {i j : Nat} (h : i ≠ j) :
    getClient (reapSlot now st j) i = getClient st i := by
  unfold reapSlot
  split
  · exact closeClient_getClient_ne st h
  · rfl

theorem reapSlot_getClient (now : Nat) (st : ServerState) (j i : Nat) :
    getClient (reapSlot now st j) i = getClient st i ∨
      ((getClient (reapSlot now st j) i).active = false ∧
        (getClient (reapSlot now st j) i).authenticated = false) := by
  by_cases hij : i = j
  · subst hij
    unfold reapSlot
    split
    · rename_i hcond
      right
      rw [closeClient_getClient_self st (by
        rcases Bool.and_eq_true .. |>.mp hcond with ⟨h1, _⟩
        exact h1)]
      exact ⟨rfl, rfl⟩
    · left
      rfl
  · left
    exact reapSlot_getClient_ne now st hij

theorem reapSlot_preserve_inactive (now : Nat) (st : ServerState) (j : Nat) {i : Nat}
    (h : (getClient st i).active = false) :
    getClient (reapSlot now st j) i = getClient st i := by
  by_cases hij : i = j
  · subst hij
    unfold reapSlot
    rw [if_neg (by simp [h])]
  · exact reapSlot_getClient_ne now st hij

theorem reap_foldl_preserve_inactive (now : Nat) (L : List Nat) (st : ServerState) {i : Nat}
    (h : (getClient st i).active = false) :
    getClient (L.foldl (reapSlot now) st) i = getClient st i := by
  induction L generalizing st with
  | nil => rfl
  | cons j rest ih =>
    simp only [List.foldl_cons]
    have hp : getClient (reapSlot now st j) i = getClient st i :=
      reapSlot_preserve_inactive now st j h
    rw [ih (reapSlot now st j) (by rw [hp]; exact h), hp]

theorem reap_foldl_getClient (now : Nat) (L : List Nat) (st : ServerState) (i : Nat) :
    getClient (L.foldl (reapSlot now) st) i = getClient st i ∨
      ((getClient (L.foldl (reapSlot now) st) i).active = false ∧
        (getClient (L.foldl (reapSlot now) st) i).authenticated = false) := by
  induction L generalizing st with
  | nil => left; rfl
  | cons j rest ih =>
    simp only [List.foldl_cons]
    rcases reapSlot_getClient now st j i with heq | ⟨ha, hu⟩
    · rcases ih (reapSlot now st j) with h1 | h1
      · left; rw [h1, heq]
      · right; exact h1
    · right
      rw [reap_foldl_preserve_inactive now rest _ ha]
      exact ⟨ha, hu⟩

theorem reap_foldl_evicts (now : Nat) (L : List Nat) (st : ServerState) {i : Nat}
    (hi : i ∈ L) (hact : (getClient st i).active = true)
    (hin : clientInactive (getClient st i) now = true) :
    (getClient (L.foldl (reapSlot now) st) i).active = false ∧
      (getClient (L.foldl (reapSlot now) st) i).connected = false := by
  induction L generalizing st with
  | nil => simp at hi
  | cons j rest ih =>
    simp only [List.foldl_cons]
    by_cases hij : i = j
    · subst hij
      have hclose : getClient (reapSlot now st i) i =
          { getClient st i with
              connected := false, active := false, authenticated := false, clientId := "" } := by
        unfold reapSlot
        rw [if_pos (by simp [hact, hin])]
        exact closeClient_getClient_self st hact
      rw [reap_foldl_preserve_inactive now rest _ (by rw [hclose]), hclose]
      exact ⟨rfl, rfl⟩
    · have hmem : i ∈ rest := by
        rcases List.mem_cons.mp hi with h | h
        · exact absurd h hij
        · exact h
      have hpres := reapSlot_getClient_ne now st (j := j) hij
      exact ih (reapSlot now st j) hmem (by rw [hpres]; exact hact)
        (by rw [hpres]; exact hin)

theorem mem_sendResponse {st : ServerState} {i : Nat} {msg : WireMsg} {a : OutAction}
    (h : a ∈ sendResponse st i msg) : a = OutAction.write (Dest.slot i) msg := by
  unfold sendResponse at h
  split at h
  · simpa using h
  · simp at h

theorem processCM_clients (st : ServerState) (j : Nat) (parsed : Option JsonMsg) (now : Nat) :
    (processClientMessage st j parsed now).1.clients = st.clients ∨
      (∃ doc, parsed = some doc ∧ doc.command = "auth" ∧ doc.password = auth_password ∧
        (getClient st j).authenticated = false ∧
        (processClientMessage st j parsed now).1.clients =
          st.clients.set j { getClient st j with authenticated := true }) := by
  unfold processClientMessage
  cases parsed with
  | none => exact Or.inl rfl
  | some doc =>
    simp only
    by_cases hauth : (getClient st j).authenticated
    · rw [if_neg (by simp [hauth])]
      left
      repeat' split
      all_goals rfl
    · rw [if_pos (by simp [hauth])]
      by_cases hcmd : doc.command == "auth"
      · rw [if_pos hcmd]
        by_cases hpw : authenticateClient doc.password
        · rw [if_pos hpw]
          right
          refine ⟨doc, rfl, eq_of_beq hcmd, ?_, by simp [hauth], rfl⟩
          unfold authenticateClient at hpw
          exact eq_of_beq hpw
        · rw [if_neg hpw]
          exact Or.inl rfl
      · rw [if_neg hcmd]
        exact Or.inl rfl

theorem handleCM_clients (st : ServerState) (j : Nat) (parsed : Option JsonMsg) (now : Nat) :
    (handleClientMessage st j parsed now).1.clients = st.clients ∨
      ((getClient st j).active = true ∧ (getClient st j).connected = true ∧
        ((handleClientMessage st j parsed now).1.clients =
            st.clients.set j { getClient st j with lastHeartbeat := now } ∨
          (∃ doc, parsed = some doc ∧ doc.command = "auth" ∧ doc.password = auth_password ∧
            (getClient st j).authenticated = false ∧
            (handleClientMessage st j parsed now).1.clients =
              st.clients.set j
                { getClient st j with lastHeartbeat := now, authenticated := true }))) := by
  unfold handleClientMessage
  split
  · rename_i hg
    obtain ⟨ha, hc⟩ := Bool.and_eq_true .. |>.mp hg
    right
    refine ⟨ha, hc, ?_⟩
    have hget1 : getClient
        { st with clients := st.clients.set j { getClient st j with lastHeartbeat := now } } j =
        { getClient st j with lastHeartbeat := now } := by
      simp only [getClient]
      exact getD_set_self _ (getClient_lt_of_active ha) _ _
    rcases processCM_clients
        { st with clients := st.clients.set j { getClient st j with lastHeartbeat := now } }
        j parsed now with h1 | ⟨doc, hp, hcmd, hpwd, hau, h1⟩
    · left
      rw [h1]
    · right
      refine ⟨doc, hp, hcmd, hpwd, ?_, ?_⟩
      · rw [hget1] at hau
        exact hau
      · rw [h1, hget1, List.set_set]
  · exact Or.inl rfl

theorem processCM_write_timestamp {st : ServerState} {j : Nat} {parsed : Option JsonMsg}
    {now : Nat} {d : Dest} {msg : WireMsg}
    (h : OutAction.write d msg ∈ (processClientMessage st j parsed now).2) :
    timestampOf msg = some now := by
  unfold processClientMessage at h
  cases parsed with
  | none =>
    have h2 := mem_sendResponse h
    injection h2 with h3 h4
    subst h4
    rfl
  | some doc =>
    simp only at h
    repeat' split at h
    all_goals
      first
      | (have h2 := mem_sendResponse h
         injection h2 with h3 h4
         subst h4
         rfl)

theorem reap_foldl_length (now : Nat) (L : List Nat) (st : ServerState) :
    ((L.foldl (reapSlot now) st)).clients.length = st.clients.length := by
  induction L generalizing st with
  | nil => rfl
  | cons j rest ih =>
    simp only [List.foldl_cons]
    rw [ih]
    unfold reapSlot closeClient
    split
    · split
      · simp
      · rfl
    · rfl

end Esp32Led

namespace QtClient

theorem app_noEffects (e : Effects) : e.app noEffects = e := by
  cases e
  simp [Effects.app, noEffects]

theorem noEffects_app (e : Effects) : noEffects.app e = e := by
  cases e
  simp [Effects.app, noEffects]

theorem app_assoc (a b c : Effects) : (a.app b).app c = a.app (b.app c) := by
  cases a
  cases b
  cases c
  simp [Effects.app]

theorem completeLines_of_break_none {buf : List Char} (h : breakAtNewline buf = none) :
    completeLines buf = ([], buf) := by
  induction buf with
  | nil => rfl
  | cons c rest ih =>
    simp only [breakAtNewline] at h
    by_cases hc : c = '\n'
    · simp [hc] at h
    · simp only [hc, if_false, Option.map_eq_none'] at h
      simp only [completeLines, hc, if_false]
      rw [ih h]

theorem completeLines_of_break_some {buf line rest : List Char}
    (h : breakAtNewline buf = some (line, rest)) :
    completeLines buf = (line :: (completeLines rest).1, (completeLines rest).2) := by
  induction buf generalizing line rest with
  | nil => simp [breakAtNewline] at h
  | cons c tail ih =>
    simp only [breakAtNewline] at h
    by_cases hc : c = '\n'
    · rw [if_pos hc] at h
      have h1 : line = [] := (Prod.mk.injEq .. |>.mp (Option.some.inj h)).1.symm
      have h2 : rest = tail := (Prod.mk.injEq .. |>.mp (Option.some.inj h)).2.symm
      subst h1
      subst h2
      simp [completeLines, hc]
    · rw [if_neg hc] at h
      rw [Option.map_eq_some'] at h
      obtain ⟨p, hp, hpe⟩ := h
      have hl : line = c :: p.1 := (Prod.mk.injEq .. |>.mp hpe).1.symm
      have hr : rest = p.2 := (Prod.mk.injEq .. |>.mp hpe).2.symm
      subst hl
      subst hr
      simp only [completeLines, hc, if_false]
      rw [ih hp]

theorem lineHandled_acc (parse : List Char → Option QObj) (st : ClientState) (e : Effects)
    (l : List Char) :
    lineHandled parse (st, e) l =
      ((lineHandled parse (st, noEffects) l).1,
        e.app (lineHandled parse (st, noEffects) l).2) := by
  by_cases ht : trimmed l = []
  · simp [lineHandled, ht, app_noEffects]
  · cases hp : parse (trimmed l) with
    | none => simp [lineHandled, ht, hp, app_noEffects]
    | some obj => simp [lineHandled, ht, hp, noEffects_app]

theorem foldl_lineHandled_acc (parse : List Char → Option QObj)
    (lines : List (List Char)) (st : ClientState) (e : Effects) :
    lines.foldl (lineHandled parse) (st, e) =
      ((lines.foldl (lineHandled parse) (st, noEffects)).1,
        e.app (lines.foldl (lineHandled parse) (st, noEffects)).2) := by
  induction lines generalizing st e with
  | nil => simp [app_noEffects]
  | cons l ls ih =>
    simp only [List.foldl_cons]
    rw [lineHandled_acc parse st e l, ih]
    conv_rhs => rw [← Prod.mk.eta (p := lineHandled parse (st, noEffects) l), ih]
    rw [app_assoc]

theorem processBuffer_break_none {parse : List Char → Option QObj} {st : ClientState}
    {buf : List Char} (h : breakAtNewline buf = none) :
    processBuffer parse st buf = (st, buf, noEffects) := by
  rw [processBuffer]
  split
  · rfl
  · rename_i line rest heq
    rw [h] at heq
    cases heq

theorem processBuffer_break_some {parse : List Char → Option QObj} {st : ClientState}
    {buf line rest : List Char} (h : breakAtNewline buf = some (line, rest)) :
    processBuffer parse st buf =
      (if trimmed line = [] then processBuffer parse st rest
       else
         match parse (trimmed line) with
         | none => processBuffer parse st rest
         | some obj =>
           ((processBuffer parse (processMessage st obj).1 rest).1,
             (processBuffer parse (processMessage st obj).1 rest).2.1,
             (processMessage st obj).2.app
               (processBuffer parse (processMessage st obj).1 rest).2.2)) := by
  rw [processBuffer]
  split
  · rename_i heq
    rw [h] at heq
    cases heq
  · rename_i line2 rest2 heq
    rw [h] at heq
    obtain ⟨h1, h2⟩ := Prod.mk.injEq .. |>.mp (Option.some.inj heq)
    subst h1
    subst h2
    rfl

theorem processBuffer_eq_linewise (parse : List Char → Option QObj) (st : ClientState)
    (buf : List Char) :
    processBuffer parse st buf =
      (((completeLines buf).1.foldl (lineHandled parse) (st, noEffects)).1,
        (completeLines buf).2,
        ((completeLines buf).1.foldl (lineHandled parse) (st, noEffects)).2) := by
  induction st, buf using processBuffer.induct parse with
  | case1 st buf h =>
    rw [processBuffer_break_none h, completeLines_of_break_none h]
    simp
  | case2 st buf line rest h hlt l hl ih =>
    have hl2 : trimmed line = [] := hl
    rw [processBuffer_break_some h, if_pos hl2, completeLines_of_break_some h]
    simp only [List.foldl_cons]
    rw [show lineHandled parse (st, noEffects) line = (st, noEffects) by
      simp [lineHandled, hl2]]
    exact ih
  | case3 st buf line rest h hlt l hne hp ih =>
    have hne2 : ¬trimmed line = [] := hne
    have hp2 : parse (trimmed line) = none := hp
    rw [processBuffer_break_some h, if_neg hne2, hp2, completeLines_of_break_some h]
    simp only [List.foldl_cons]
    rw [show lineHandled parse (st, noEffects) line = (st, noEffects) by
      simp [lineHandled, hne2, hp2]]
    exact ih
  | case4 st buf line rest h hlt l hne obj hp r1 ih =>
    have hne2 : ¬trimmed line = [] := hne
    have hp2 : parse (trimmed line) = some obj := hp
    rw [processBuffer_break_some h, if_neg hne2, hp2, completeLines_of_break_some h]
    simp only [List.foldl_cons]
    rw [show lineHandled parse (st, noEffects) line =
        ((processMessage st obj).1, (processMessage st obj).2) by
      simp [lineHandled, hne2, hp2, noEffects_app]]
    rw [show processBuffer parse (processMessage st obj).1 rest =
        processBuffer parse r1.1 rest from rfl, ih]
    rw [foldl_lineHandled_acc parse (completeLines rest).1 (processMessage st obj).1
        (processMessage st obj).2]

end QtClient

open Esp32Led ServoServer QtClient

theorem C1_fixed {c c' : ClientInfo} (hac : c'.active = c.active)
    (hau : c'.authenticated = c.authenticated) (P : Prop) :
    (c.active = false → c'.active = true → c'.authenticated = false)
    ∧ (c.authenticated = false → c'.authenticated = true → P)
    ∧ (c.active = true → c.authenticated = true → c'.authenticated = false →
        c'.active = false) := by
  refine ⟨?_, ?_, ?_⟩
  · intro h1 h2
    rw [hac, h1] at h2
    cases h2
  · intro h1 h2
    rw [hau, h1] at h2
    cases h2
  · intro h1 h2 h3
    rw [hau, h2] at h3
    cases h3

theorem C1_eq {c c' : ClientInfo} (he : c' = c) (P : Prop) :
    (c.active = false → c'.active = true → c'.authenticated = false)
    ∧ (c.authenticated = false → c'.authenticated = true → P)
    ∧ (c.active = true → c.authenticated = true → c'.authenticated = false →
        c'.active = false) :=
  C1_fixed (by rw [he]) (by rw [he]) P

theorem C1_cleared {c c' : ClientInfo} (hac : c'.active = false)
    (hau : c'.authenticated = false) (P : Prop) :
    (c.active = false → c'.active = true → c'.authenticated = false)
    ∧ (c.authenticated = false → c'.authenticated = true → P)
    ∧ (c.active = true → c.authenticated = true → c'.authenticated = false →
        c'.active = false) := by
  refine ⟨fun _ _ => hau, ?_, fun _ _ _ => hac⟩
  intro _ h2
  rw [hau] at h2
  cases h2

/-- C1: on every server step, a freshly accepted session starts with
`authenticated = false`; `authenticated` can turn from false to true only by
a message event on that very slot carrying an `auth` command with exactly
the shared secret; and while the session stays alive `authenticated` never
reverts — if it is cleared, the slot was destroyed (evicted) by that step. -/
theorem C1_authenticated_monotone (st : ServerState) (e : ServerEvent) (now : Nat)
    (i : Nat) :
    ((getClient st i).active = false →
      (getClient (stepServer st e now).1 i).active = true →
      (getClient (stepServer st e now).1 i).authenticated = false)
    ∧ ((getClient st i).authenticated = false →
        (getClient (stepServer st e now).1 i).authenticated = true →
        ∃ doc, e = ServerEvent.messageFrom i (some doc) ∧ doc.command = "auth" ∧
          doc.password = auth_password)
    ∧ ((getClient st i).active = true → (getClient st i).authenticated = true →
        (getClient (stepServer st e now).1 i).authenticated = false →
        (getClient (stepServer st e now).1 i).active = false) := by
  cases e with
  | newConnection arrival =>
    cases arrival with
    | false => exact C1_eq rfl _
    | true =>
      cases hslot : findFreeClientSlot st.clients with
      | none =>
        have hcl : (stepServer st (ServerEvent.newConnection true) now).1 = st := by
          simp only [stepServer, handleNewClients, if_true, hslot]
        exact C1_eq (by rw [hcl]) _
      | some slot =>
        obtain ⟨hlt, hfree⟩ := findFreeClientSlot_some hslot
        have hcl : (stepServer st (ServerEvent.newConnection true) now).1.clients =
            st.clients.set slot
              ({ connected := true, active := true, authenticated := false,
                 lastHeartbeat := now, clientId := "Client_" ++ toString (slot + 1) }) := by
          simp only [stepServer, handleNewClients, if_true, hslot]
        by_cases hij : i = slot
        · subst hij
          have hgc : getClient (stepServer st (ServerEvent.newConnection true) now).1 i =
              { connected := true, active := true, authenticated := false,
                lastHeartbeat := now, clientId := "Client_" ++ toString (i + 1) } := by
            simp only [getClient]
            rw [hcl]
            exact getD_set_self _ hlt _ _
          refine ⟨fun _ _ => by rw [hgc], ?_, fun h1 _ _ => by
            simp only [getClient] at h1
            rw [h1] at hfree
            cases hfree⟩
          intro _ h2
          rw [hgc] at h2
          cases h2
        · exact C1_fixed (c := getClient st i)
            (by simp only [getClient]; rw [hcl, getD_set_of_ne _ (fun he => hij he.symm)])
            (by simp only [getClient]; rw [hcl, getD_set_of_ne _ (fun he => hij he.symm)]) _
  | messageFrom j parsed =>
    rcases handleCM_clients st j parsed now with h | ⟨ha, hc, h⟩
    · exact C1_eq (by simp only [stepServer, getClient]; rw [h]) _
    · have hjlt : j < st.clients.length := getClient_lt_of_active ha
      rcases h with h | ⟨doc, hp, hcmd, hpwd, hau0, h⟩
      · by_cases hij : i = j
        · subst hij
          have hgc : getClient (stepServer st (ServerEvent.messageFrom i parsed) now).1 i =
              { getClient st i with lastHeartbeat := now } := by
            simp only [stepServer, getClient]
            rw [h]
            exact getD_set_self _ hjlt _ _
          exact C1_fixed (by rw [hgc]) (by rw [hgc]) _
        · exact C1_fixed (c := getClient st i)
            (by simp only [stepServer, getClient]; rw [h, getD_set_of_ne _ (fun he => hij he.symm)])
            (by simp only [stepServer, getClient]; rw [h, getD_set_of_ne _ (fun he => hij he.symm)]) _
      · by_cases hij : i = j
        · subst hij
          have hgc : getClient (stepServer st (ServerEvent.messageFrom i parsed) now).1 i =
              { getClient st i with lastHeartbeat := now, authenticated := true } := by
            simp only [stepServer, getClient]
            rw [h]
            exact getD_set_self _ hjlt _ _
          refine ⟨fun h1 _ => absurd h1 (by simp [ha]), ?_, ?_⟩
          · intro _ _
            exact ⟨doc, by rw [hp], hcmd, hpwd⟩
          · intro _ _ h3
            rw [hgc] at h3
            cases h3
        · exact C1_fixed (c := getClient st i)
            (by simp only [stepServer, getClient]; rw [h, getD_set_of_ne _ (fun he => hij he.symm)])
            (by simp only [stepServer, getClient]; rw [h, getD_set_of_ne _ (fun he => hij he.symm)]) _
  | broadcastTick => exact C1_eq rfl _
  | reaperTick =>
    rcases reap_foldl_getClient now (List.range MAX_CLIENTS) st i with heq | ⟨ha, hu⟩
    · exact C1_eq heq _
    · exact C1_cleared ha hu _
  | transportDrop j =>
    by_cases hij : i = j
    · subst hij
      by_cases hlt : i < st.clients.length
      · have hgc : getClient (stepServer st (ServerEvent.transportDrop i) now).1 i =
            { getClient st i with connected := false } := by
          simp only [stepServer, getClient]
          exact getD_set_self _ hlt _ _
        exact C1_fixed (by rw [hgc]) (by rw [hgc]) _
      · have hgc : getClient (stepServer st (ServerEvent.transportDrop i) now).1 i =
            getClient st i := by
          simp only [stepServer, getClient]
          rw [List.getD_eq_getElem?_getD, List.getD_eq_getElem?_getD,
            List.getElem?_eq_none (by simp; omega), List.getElem?_eq_none (by omega)]
        exact C1_eq hgc _
    · exact C1_fixed (c := getClient st i)
        (by simp only [stepServer, getClient]; rw [getD_set_of_ne _ (fun he => hij he.symm)])
        (by simp only [stepServer, getClient]; rw [getD_set_of_ne _ (fun he => hij he.symm)]) _

/-- Witness for C1: a live authenticated session in slot 0 whose heartbeat
expired is destroyed (not merely de-authenticated) by the reaper step. -/
theorem C1_witness :
    (getClient
      { clients := { connected := true, authenticated := true, lastHeartbeat := 0,
                     clientId := "Client_1", active := true } :: List.replicate 4 emptyClient,
        activeClients := 1,
        hardware := { leds := List.replicate 5 false,
                      buttonStates := List.replicate 5 false, analogTotal := 0 } } 0).active
        = true ∧
    (getClient
      (stepServer
        { clients := { connected := true, authenticated := true, lastHeartbeat := 0,
                       clientId := "Client_1", active := true } :: List.replicate 4 emptyClient,
          activeClients := 1,
          hardware := { leds := List.replicate 5 false,
                        buttonStates := List.replicate 5 false, analogTotal := 0 } }
        ServerEvent.reaperTick 40000).1 0).active = false :=
  ⟨by decide,
    (C1_authenticated_monotone
      { clients := { connected := true, authenticated := true, lastHeartbeat := 0,
                     clientId := "Client_1", active := true } :: List.replicate 4 emptyClient,
        activeClients := 1,
        hardware := { leds := List.replicate 5 false,
                      buttonStates := List.replicate 5 false, analogTotal := 0 } }
      ServerEvent.reaperTick 40000 0).2.2 (by decide) (by decide) (by decide)⟩

/-- C2: when every slot is occupied, an arriving connection is answered with
exactly the literal Server-full line and then closed, and the server state —
every slot of the session table included — is unchanged. -/
theorem C2_server_full_reject (st : ServerState) (now : Nat)
    (hfull : ∀ c ∈ st.clients, c.active = true) :
    handleNewClients st true now =
      (st, [OutAction.write Dest.newConn (WireMsg.raw serverFullLine),
            OutAction.closeConn Dest.newConn])
    ∧ serverFullLine = "\x7b\"status\":\"error\",\"message\":\"Server full\"\x7d" := by
  refine ⟨?_, rfl⟩
  have hnone : findFreeClientSlot st.clients = none := findFreeAux_none_of_all hfull
  unfold handleNewClients
  simp [hnone]

/-- Witness for C2: a sixth connection against five occupied slots. -/
theorem C2_witness :
    handleNewClients
        { clients := List.replicate 5
            { connected := true, authenticated := false, lastHeartbeat := 0,
              clientId := "Client_1", active := true },
          activeClients := 5,
          hardware := { leds := List.replicate 5 false,
                        buttonStates := List.replicate 5 false, analogTotal := 0 } }
        true 7 =
      ({ clients := List.replicate 5
            { connected := true, authenticated := false, lastHeartbeat := 0,
              clientId := "Client_1", active := true },
          activeClients := 5,
          hardware := { leds := List.replicate 5 false,
                        buttonStates := List.replicate 5 false, analogTotal := 0 } },
        [OutAction.write Dest.newConn (WireMsg.raw serverFullLine),
         OutAction.closeConn Dest.newConn]) :=
  (C2_server_full_reject _ 7 (by decide)).1

theorem getClient_hardware (st : ServerState) (hw : HardwareState) (i : Nat) :
    getClient { st with hardware := hw } i = getClient st i := rfl

/-- C5: for an authenticated session, `set_led` with an id outside [1,5]
leaves every part of the server state (hardware included) unchanged and
returns exactly the validation error, while an id `n` in [1,5] sets exactly
the LED at driver index `n - 1` and returns the success response. -/
theorem C5_set_led_validation (st : ServerState) (i : Nat) (doc : JsonMsg) (now : Nat)
    (hact : (getClient st i).active = true) (hconn : (getClient st i).connected = true)
    (hauth : (getClient st i).authenticated = true) (hcmd : doc.command = "set_led") :
    ((doc.led < 1 ∨ 5 < doc.led) →
      processClientMessage st i (some doc) now =
        (st, [OutAction.write (Dest.slot i)
          (WireMsg.response "error" "Invalid LED number (1-5)" now)]))
    ∧ (1 ≤ doc.led → doc.led ≤ 5 →
        processClientMessage st i (some doc) now =
          ({ st with hardware :=
              { st.hardware with
                  leds := st.hardware.leds.set (doc.led - 1).toNat doc.state } },
            [OutAction.write (Dest.slot i)
              (WireMsg.response "success"
                ("LED " ++ toString doc.led ++ " set to "
                  ++ (if doc.state then "ON" else "OFF")) now)])) := by
  constructor
  · intro hrange
    unfold processClientMessage
    simp only
    rw [if_neg (by simp [hauth]), if_pos (by simp [hcmd]), if_neg (by omega)]
    unfold sendResponse createResponseJson
    rw [if_pos (by simp [hact, hconn])]
  · intro h1 h5
    unfold processClientMessage
    simp only
    rw [if_neg (by simp [hauth]), if_pos (by simp [hcmd]), if_pos ⟨h1, h5⟩]
    unfold setLED
    rw [if_pos (by omega)]
    unfold sendResponse createResponseJson
    rw [if_pos (by simp [getClient_hardware, hact, hconn])]

/-- Witness for C5: LED 9 is rejected without touching the LEDs; LED 2 turns
on driver index 1. -/
theorem C5_witness :
    processClientMessage
        { clients := [{ connected := true, authenticated := true, lastHeartbeat := 0,
                        clientId := "Client_1", active := true }],
          activeClients := 1,
          hardware := { leds := List.replicate 5 false,
                        buttonStates := List.replicate 5 false, analogTotal := 0 } }
        0 (some { command := "set_led", password := "", led := 9, state := true }) 3 =
      ({ clients := [{ connected := true, authenticated := true, lastHeartbeat := 0,
                       clientId := "Client_1", active := true }],
         activeClients := 1,
         hardware := { leds := List.replicate 5 false,
                       buttonStates := List.replicate 5 false, analogTotal := 0 } },
        [OutAction.write (Dest.slot 0)
          (WireMsg.response "error" "Invalid LED number (1-5)" 3)])
    ∧ processClientMessage
        { clients := [{ connected := true, authenticated := true, lastHeartbeat := 0,
                        clientId := "Client_1", active := true }],
          activeClients := 1,
          hardware := { leds := List.replicate 5 false,
                        buttonStates := List.replicate 5 false, analogTotal := 0 } }
        0 (some { command := "set_led", password := "", led := 2, state := true }) 3 =
      ({ clients := [{ connected := true, authenticated := true, lastHeartbeat := 0,
                       clientId := "Client_1", active := true }],
         activeClients := 1,
         hardware := { leds := [false, true, false, false, false],
                       buttonStates := List.replicate 5 false, analogTotal := 0 } },
        [OutAction.write (Dest.slot 0)
          (WireMsg.response "success" "LED 2 set to ON" 3)]) := by
  constructor
  · exact (C5_set_led_validation _ 0 _ 3 (by decide) (by decide) (by decide)
      (by decide)).1 (by decide)
  · have h := (C5_set_led_validation
      { clients := [{ connected := true, authenticated := true, lastHeartbeat := 0,
                      clientId := "Client_1", active := true }],
        activeClients := 1,
        hardware := { leds := List.replicate 5 false,
                      buttonStates := List.replicate 5 false, analogTotal := 0 } }
      0 { command := "set_led", password := "", led := 2, state := true } 3
      (by decide) (by decide) (by decide) (by decide)).2 (by decide) (by decide)
    rw [h]
    decide

/-- C6: a broadcast tick serializes one status document from the hardware
state and sends that same value exactly to the slots that are live (active
with a connected transport) and authenticated: every emitted action is such
a write to such a slot, and every such slot receives it. -/
theorem C6_broadcast_authenticated_only (st : ServerState) (now : Nat) :
    (∀ a ∈ sendDataToClients st now, ∃ i, i < MAX_CLIENTS ∧
        (getClient st i).active = true ∧ (getClient st i).authenticated = true ∧
        (getClient st i).connected = true ∧
        a = OutAction.write (Dest.slot i) (createStatusJson st.hardware now))
    ∧ (∀ i, i < MAX_CLIENTS → (getClient st i).active = true →
        (getClient st i).authenticated = true → (getClient st i).connected = true →
        OutAction.write (Dest.slot i) (createStatusJson st.hardware now)
          ∈ sendDataToClients st now) := by
  constructor
  · intro a ha
    unfold sendDataToClients at ha
    simp only [List.mem_map, List.mem_filter, List.mem_range, Bool.and_eq_true] at ha
    obtain ⟨i, ⟨hi, ⟨h1, h2⟩, h3⟩, rfl⟩ := ha
    exact ⟨i, hi, h1, h2, h3, rfl⟩
  · intro i hi h1 h2 h3
    unfold sendDataToClients
    simp only [List.mem_map, List.mem_filter, List.mem_range, Bool.and_eq_true]
    exact ⟨i, ⟨hi, ⟨h1, h2⟩, h3⟩, rfl⟩

/-- Witness for C6: with slot 0 authenticated and slot 1 connected but not
authenticated, the broadcast goes to slot 0. -/
theorem C6_witness :
    OutAction.write (Dest.slot 0)
        (createStatusJson
          { leds := List.replicate 5 false,
            buttonStates := List.replicate 5 false, analogTotal := 0 } 123)
      ∈ sendDataToClients
          { clients := [{ connected := true, authenticated := true, lastHeartbeat := 0,
                          clientId := "Client_1", active := true },
                        { connected := true, authenticated := false, lastHeartbeat := 0,
                          clientId := "Client_2", active := true }],
            activeClients := 2,
            hardware := { leds := List.replicate 5 false,
                          buttonStates := List.replicate 5 false, analogTotal := 0 } } 123 :=
  (C6_broadcast_authenticated_only _ 123).2 0 (by decide) (by decide) (by decide) (by decide)

/-- C3 counterexample: the servo server answers a parsed non-`auth` command
(`set_servo`) from an unauthenticated session with its literal
`Not authenticated` line, not with the `Authentication required` response
the claim requires of every server. -/
theorem C3_counterexample :
    (ServoServer.processLine
        { connected := true, clientAuthenticated := false, servos := [90, 90, 90, 90] }
        (some { command := "set_servo", password := "", servo_index := 0, angle := 10 })).2 =
      ["\x7b\"status\":\"error\",\"message\":\"Not authenticated\"\x7d"]
    ∧ (ServoServer.processLine
        { connected := true, clientAuthenticated := false, servos := [90, 90, 90, 90] }
        (some { command := "set_servo", password := "", servo_index := 0, angle := 10 })).2 ≠
      ["\x7b\"status\":\"error\",\"message\":\"Authentication required\"\x7d"] := by
  constructor
  · decide
  · decide

/-- C3 amended: in the Esp-32_LED server an unauthenticated session sending
any parsed non-`auth` command receives exactly the `Authentication required`
error and nothing changes; in the servo_server variant such a session
receives the literal `Not authenticated` line for `set_servo` and no
response at all for any other non-`auth` command, again with no state
change. -/
theorem C3_auth_required_amended :
    (∀ (st : ServerState) (i : Nat) (doc : JsonMsg) (now : Nat),
        (getClient st i).active = true → (getClient st i).connected = true →
        (getClient st i).authenticated = false → doc.command ≠ "auth" →
        processClientMessage st i (some doc) now =
          (st, [OutAction.write (Dest.slot i)
            (WireMsg.response "error" "Authentication required" now)]))
    ∧ (∀ (st : ServoServer.ServoState) (doc : ServoServer.ServoDoc),
        st.clientAuthenticated = false → doc.command ≠ "auth" →
        (ServoServer.processLine st (some doc)).1 = st ∧
        (ServoServer.processLine st (some doc)).2 =
          (if doc.command == "set_servo" then
            ["\x7b\"status\":\"error\",\"message\":\"Not authenticated\"\x7d"]
          else [])) := by
  constructor
  · intro st i doc now hact hconn hauth hcmd
    unfold processClientMessage
    simp only
    rw [if_pos (by simp [hauth]), if_neg (by simp [hcmd])]
    unfold sendResponse createResponseJson
    rw [if_pos (by simp [hact, hconn])]
  · intro st doc hauth hcmd
    unfold ServoServer.processLine
    simp only
    rw [if_neg (by simp [hcmd])]
    by_cases hs : doc.command == "set_servo"
    · rw [if_pos hs, if_neg (by simp [hauth]), if_pos hs]
      exact ⟨rfl, rfl⟩
    · rw [if_neg hs, if_neg hs]
      exact ⟨rfl, rfl⟩

/-- Witness for C3 (amended): a `ping` before authentication on the
Esp-32_LED server, and an unauthenticated `set_servo` on the servo server. -/
theorem C3_witness :
    processClientMessage
        { clients := [{ connected := true, authenticated := false, lastHeartbeat := 0,
                        clientId := "Client_1", active := true }],
          activeClients := 1,
          hardware := { leds := List.replicate 5 false,
                        buttonStates := List.replicate 5 false, analogTotal := 0 } }
        0 (some { command := "ping", password := "", led := 1, state := true }) 5 =
      ({ clients := [{ connected := true, authenticated := false, lastHeartbeat := 0,
                       clientId := "Client_1", active := true }],
         activeClients := 1,
         hardware := { leds := List.replicate 5 false,
                       buttonStates := List.replicate 5 false, analogTotal := 0 } },
        [OutAction.write (Dest.slot 0)
          (WireMsg.response "error" "Authentication required" 5)])
    ∧ (ServoServer.processLine
          { connected := true, clientAuthenticated := false, servos := [90, 90, 90, 90] }
          (some { command := "set_servo", password := "", servo_index := 1, angle := 20 })).1 =
        { connected := true, clientAuthenticated := false, servos := [90, 90, 90, 90] } :=
  ⟨C3_auth_required_amended.1 _ 0 _ 5 (by decide) (by decide) (by decide) (by decide),
   (C3_auth_required_amended.2 _ _ (by decide) (by decide)).1⟩

/-- C4 counterexample: on the servo server a wrong-password `auth` command
closes the session's transport (`client.stop()`), contradicting the claim
that the transport is never closed by handling a failed `auth`. -/
theorem C4_counterexample :
    ({ connected := true, clientAuthenticated := false,
       servos := [90, 90, 90, 90] } : ServoServer.ServoState).connected = true
    ∧ (ServoServer.processLine
        { connected := true, clientAuthenticated := false, servos := [90, 90, 90, 90] }
        (some { command := "auth", password := "wrong", servo_index := 0,
                angle := 0 })).1.connected = false := by
  constructor
  · decide
  · decide

/-- C4 amended: on the Esp-32_LED server a wrong-password `auth` yields
exactly the `Invalid password` error with the whole state unchanged (so the
session stays unauthenticated, stays in its slot and keeps its transport
open); on the servo_server variant it yields the literal
`Authentication failed` line and the transport is closed immediately. -/
theorem C4_wrong_password_amended :
    (∀ (st : ServerState) (i : Nat) (doc : JsonMsg) (now : Nat),
        (getClient st i).active = true → (getClient st i).connected = true →
        (getClient st i).authenticated = false → doc.command = "auth" →
        doc.password ≠ auth_password →
        processClientMessage st i (some doc) now =
          (st, [OutAction.write (Dest.slot i)
            (WireMsg.response "error" "Invalid password" now)]))
    ∧ (∀ (st : ServoServer.ServoState) (doc : ServoServer.ServoDoc),
        doc.command = "auth" → doc.password ≠ ServoServer.requiredPassword →
        ServoServer.processLine st (some doc) =
          ({ st with connected := false },
            ["\x7b\"status\":\"error\",\"message\":\"Authentication failed\"\x7d"])) := by
  constructor
  · intro st i doc now hact hconn hauth hcmd hpw
    unfold processClientMessage
    simp only
    rw [if_pos (by simp [hauth]), if_pos (by simp [hcmd]),
      if_neg (by simp [authenticateClient, hpw])]
    unfold sendResponse createResponseJson
    rw [if_pos (by simp [hact, hconn])]
  · intro st doc hcmd hpw
    unfold ServoServer.processLine
    simp only
    rw [if_pos (by simp [hcmd]), if_neg (by simp [hpw])]

/-- Witness for C4 (amended): wrong password on both servers. -/
theorem C4_witness :
    processClientMessage
        { clients := [{ connected := true, authenticated := false, lastHeartbeat := 0,
                        clientId := "Client_1", active := true }],
          activeClients := 1,
          hardware := { leds := List.replicate 5 false,
                        buttonStates := List.replicate 5 false, analogTotal := 0 } }
        0 (some { command := "auth", password := "wrong", led := 0, state := false }) 8 =
      ({ clients := [{ connected := true, authenticated := false, lastHeartbeat := 0,
                       clientId := "Client_1", active := true }],
         activeClients := 1,
         hardware := { leds := List.replicate 5 false,
                       buttonStates := List.replicate 5 false, analogTotal := 0 } },
        [OutAction.write (Dest.slot 0) (WireMsg.response "error" "Invalid password" 8)])
    ∧ ServoServer.processLine
        { connected := true, clientAuthenticated := false, servos := [90, 90, 90, 90] }
        (some { command := "auth", password := "wrong", servo_index := 0, angle := 0 }) =
      ({ connected := false, clientAuthenticated := false, servos := [90, 90, 90, 90] },
        ["\x7b\"status\":\"error\",\"message\":\"Authentication failed\"\x7d"]) :=
  ⟨C4_wrong_password_amended.1 _ 0 _ 8 (by decide) (by decide) (by decide) (by decide)
      (by decide),
   C4_wrong_password_amended.2 _ _ (by decide) (by decide)⟩

/-- C7 counterexample: the servo server's response to an authenticated
`set_servo` is the fixed line `("status":"success")` with no timestamp
field, refuting the claim that every response carries one. -/
theorem C7_counterexample :
    ¬ (∀ line ∈ (ServoServer.processLine
        { connected := true, clientAuthenticated := true, servos := [90, 90, 90, 90] }
        (some { command := "set_servo", password := "", servo_index := 0,
                angle := 45 })).2,
        ServoServer.containsTimestamp line = true) := by
  decide

/-- C7 amended: every line the Esp-32_LED server emits on any step carries a
timestamp equal to the clock (`millis()`) at that step — with the single
exception of the literal Server-full rejection line — so any two timestamped
messages emitted at clock values `t1 ≤ t2` (in particular consecutive
messages to one session) carry non-decreasing timestamps; the servo_server
variant's fixed-string responses carry no timestamp at all. -/
theorem C7_timestamps_amended :
    (∀ (st : ServerState) (e : ServerEvent) (now : Nat) (d : Dest) (msg : WireMsg),
        OutAction.write d msg ∈ (stepServer st e now).2 →
        msg = WireMsg.raw serverFullLine ∨ timestampOf msg = some now)
    ∧ (∀ (st1 st2 : ServerState) (e1 e2 : ServerEvent) (t1 t2 : Nat) (d1 d2 : Dest)
        (m1 m2 : WireMsg) (ts1 ts2 : Nat),
        OutAction.write d1 m1 ∈ (stepServer st1 e1 t1).2 →
        OutAction.write d2 m2 ∈ (stepServer st2 e2 t2).2 →
        timestampOf m1 = some ts1 → timestampOf m2 = some ts2 →
        t1 ≤ t2 → ts1 ≤ ts2) := by
  have hpart1 : ∀ (st : ServerState) (e : ServerEvent) (now : Nat) (d : Dest)
      (msg : WireMsg), OutAction.write d msg ∈ (stepServer st e now).2 →
      msg = WireMsg.raw serverFullLine ∨ timestampOf msg = some now := by
    intro st e now d msg hmem
    cases e with
    | newConnection arrival =>
      cases arrival with
      | false => simp [stepServer, handleNewClients] at hmem
      | true =>
        cases hslot : findFreeClientSlot st.clients with
        | some slot =>
          have houts : (stepServer st (ServerEvent.newConnection true) now).2 =
              sendAuthChallenge
                { st with
                  clients :=
                    st.clients.set slot
                      ⟨true, false, now, "Client_" ++ toString (slot + 1), true⟩,
                  activeClients := st.activeClients + 1 } slot now := by
            simp only [stepServer, handleNewClients, if_true, hslot]
          rw [houts] at hmem
          have h2 := mem_sendResponse hmem
          injection h2 with h3 h4
          subst h4
          exact Or.inr rfl
        | none =>
          have houts : (stepServer st (ServerEvent.newConnection true) now).2 =
              [OutAction.write Dest.newConn (WireMsg.raw serverFullLine),
               OutAction.closeConn Dest.newConn] := by
            simp only [stepServer, handleNewClients, if_true, hslot]
          rw [houts] at hmem
          rcases List.mem_cons.mp hmem with h | h
          · injection h with h3 h4
            subst h4
            exact Or.inl rfl
          · rcases List.mem_cons.mp h with h2 | h2
            · cases h2
            · simp at h2
    | messageFrom j parsed =>
      simp only [stepServer] at hmem
      unfold handleClientMessage at hmem
      split at hmem
      · exact Or.inr (processCM_write_timestamp hmem)
      · simp at hmem
    | broadcastTick =>
      simp only [stepServer] at hmem
      unfold sendDataToClients at hmem
      simp only [List.mem_map] at hmem
      obtain ⟨i, _, heq⟩ := hmem
      injection heq with h3 h4
      subst h4
      exact Or.inr rfl
    | reaperTick => simp [stepServer] at hmem
    | transportDrop j => simp [stepServer] at hmem
  refine ⟨hpart1, ?_⟩
  intro st1 st2 e1 e2 t1 t2 d1 d2 m1 m2 ts1 ts2 h1 h2 hts1 hts2 hle
  rcases hpart1 st1 e1 t1 d1 m1 h1 with hraw | ht
  · rw [hraw] at hts1
    simp [timestampOf] at hts1
  · rcases hpart1 st2 e2 t2 d2 m2 h2 with hraw2 | ht2
    · rw [hraw2] at hts2
      simp [timestampOf] at hts2
    · have e1q : ts1 = t1 := (Option.some.inj (ht.symm.trans hts1)).symm
      have e2q : ts2 = t2 := (Option.some.inj (ht2.symm.trans hts2)).symm
      rw [e1q, e2q]
      exact hle

/-- Witness for C7 (amended): two broadcast writes at clocks 5 and 9 carry
timestamps 5 and 9. -/
theorem C7_witness :
    OutAction.write (Dest.slot 0)
        (createStatusJson
          { leds := List.replicate 5 false,
            buttonStates := List.replicate 5 false, analogTotal := 0 } 5)
      ∈ (stepServer
          { clients := [{ connected := true, authenticated := true, lastHeartbeat := 0,
                          clientId := "Client_1", active := true }],
            activeClients := 1,
            hardware := { leds := List.replicate 5 false,
                          buttonStates := List.replicate 5 false, analogTotal := 0 } }
          ServerEvent.broadcastTick 5).2
    ∧ (5 : Nat) ≤ 9 :=
  ⟨List.mem_singleton_self _,
    C7_timestamps_amended.2
      { clients := [{ connected := true, authenticated := true, lastHeartbeat := 0,
                      clientId := "Client_1", active := true }],
        activeClients := 1,
        hardware := { leds := List.replicate 5 false,
                      buttonStates := List.replicate 5 false, analogTotal := 0 } }
      { clients := [{ connected := true, authenticated := true, lastHeartbeat := 0,
                      clientId := "Client_1", active := true }],
        activeClients := 1,
        hardware := { leds := List.replicate 5 false,
                      buttonStates := List.replicate 5 false, analogTotal := 0 } }
      ServerEvent.broadcastTick ServerEvent.broadcastTick 5 9
      (Dest.slot 0) (Dest.slot 0)
      (createStatusJson
        { leds := List.replicate 5 false,
          buttonStates := List.replicate 5 false, analogTotal := 0 } 5)
      (createStatusJson
        { leds := List.replicate 5 false,
          buttonStates := List.replicate 5 false, analogTotal := 0 } 9)
      5 9 (List.mem_singleton_self _) (List.mem_singleton_self _)
      (by decide) (by decide) (by decide)⟩

/-- C8: on a reaper pass, every live slot whose transport is disconnected or
whose idle time exceeds `HEARTBEAT_TIMEOUT` is evicted — its transport
closed, its slot freed and findable by a later accept — and evicting an
already-empty slot is a no-op. -/
theorem C8_reaper_eviction (st : ServerState) (now : Nat) (i : Nat)
    (hlen : st.clients.length = MAX_CLIENTS) :
    ((getClient st i).active = true →
      ((getClient st i).connected = false ∨
        usub32 now (getClient st i).lastHeartbeat > HEARTBEAT_TIMEOUT) →
      (getClient (removeInactiveClients st now) i).active = false ∧
      (getClient (removeInactiveClients st now) i).connected = false ∧
      findFreeClientSlot (removeInactiveClients st now).clients ≠ none)
    ∧ ((getClient st i).active = false → closeClient st i = st) := by
  constructor
  · intro hact hcond
    have hin : clientInactive (getClient st i) now = true := by
      unfold clientInactive
      rcases hcond with h | h
      · simp [h]
      · simp [h]
    have hi5 : i < MAX_CLIENTS := by
      have := getClient_lt_of_active hact
      omega
    obtain ⟨h1, h2⟩ := reap_foldl_evicts now (List.range MAX_CLIENTS) st
      (List.mem_range.mpr hi5) hact hin
    refine ⟨h1, h2, ?_⟩
    have hlen2 : (removeInactiveClients st now).clients.length = st.clients.length :=
      reap_foldl_length now (List.range MAX_CLIENTS) st
    exact findFreeAux_ne_none (by omega) h1
  · intro h
    exact closeClient_of_inactive h

/-- Witness for C8: slot 0 expired at clock 40000 is evicted and its slot is
free again. -/
theorem C8_witness :
    (getClient (removeInactiveClients
      { clients := { connected := true, authenticated := true, lastHeartbeat := 0,
                     clientId := "Client_1", active := true } :: List.replicate 4 emptyClient,
        activeClients := 1,
        hardware := { leds := List.replicate 5 false,
                      buttonStates := List.replicate 5 false, analogTotal := 0 } }
      40000) 0).active = false ∧
    (getClient (removeInactiveClients
      { clients := { connected := true, authenticated := true, lastHeartbeat := 0,
                     clientId := "Client_1", active := true } :: List.replicate 4 emptyClient,
        activeClients := 1,
        hardware := { leds := List.replicate 5 false,
                      buttonStates := List.replicate 5 false, analogTotal := 0 } }
      40000) 0).connected = false ∧
    findFreeClientSlot (removeInactiveClients
      { clients := { connected := true, authenticated := true, lastHeartbeat := 0,
                     clientId := "Client_1", active := true } :: List.replicate 4 emptyClient,
        activeClients := 1,
        hardware := { leds := List.replicate 5 false,
                      buttonStates := List.replicate 5 false, analogTotal := 0 } }
      40000).clients ≠ none :=
  (C8_reaper_eviction _ 40000 0 (by decide)).1 (by decide) (Or.inr (by decide))

/-- C9: `controlServo` while not connected-and-authenticated is a silent
no-op — no write, no queueing, no error signal, no state change — and while
connected and authenticated it sends exactly one `set_servo` message with
the given angle. -/
theorem C9_control_servo_gate (st : QtClient.ClientState) (angle : Int) :
    ((st.socketConnected = false ∨ st.authenticated = false) →
      controlServo st angle = (st, noEffects))
    ∧ (st.socketConnected = true → st.authenticated = true →
        controlServo st angle =
          (st, { writes := [{ command := "set_servo", angle := angle }],
                 errors := [], connChanges := [] })) := by
  constructor
  · intro h
    unfold controlServo QtClient.isConnected
    rcases h with h | h <;> simp [h]
  · intro h1 h2
    unfold controlServo QtClient.isConnected sendMessage
    simp [h1, h2, noEffects]

/-- Witness for C9: the same angle is dropped by an unauthenticated client
and sent by an authenticated one. -/
theorem C9_witness :
    controlServo
        { socketConnected := true, authenticated := false, messageBuffer := [] } 90 =
      ({ socketConnected := true, authenticated := false, messageBuffer := [] },
        noEffects)
    ∧ controlServo
        { socketConnected := true, authenticated := true, messageBuffer := [] } 90 =
      ({ socketConnected := true, authenticated := true, messageBuffer := [] },
        { writes := [{ command := "set_servo", angle := 90 }],
          errors := [], connChanges := [] }) :=
  ⟨(C9_control_servo_gate _ 90).1 (Or.inr rfl), (C9_control_servo_gate _ 90).2 rfl rfl⟩

/-- C10: the Qt client's receive path equals the linewise description — the
buffered data splits into its complete lines and a retained trailing partial
line, the complete lines are handled in arrival order — and a complete line
that trims to empty or fails to parse as a JSON object is discarded with no
signal and no state change. -/
theorem C10_line_buffering :
    (∀ (parse : List Char → Option QObj) (st : QtClient.ClientState) (data : List Char),
        onDataReceived parse st data = specLinewise parse st data)
    ∧ (∀ (parse : List Char → Option QObj) (acc : QtClient.ClientState × Effects)
        (line : List Char),
        trimmed line = [] ∨ parse (trimmed line) = none →
        lineHandled parse acc line = acc) := by
  constructor
  · intro parse st data
    unfold onDataReceived specLinewise
    rw [processBuffer_eq_linewise]
  · intro parse acc line h
    rcases h with h | h
    · simp [lineHandled, h]
    · by_cases ht : trimmed line = []
      · simp [lineHandled, ht]
      · simp [lineHandled, ht, h]

/-- Witness for C10: a buffer holding one complete unparseable line, one
whitespace-only line and a trailing partial line, against the parser that
rejects everything. -/
theorem C10_witness :
    onDataReceived (fun _ => none)
        { socketConnected := true, authenticated := true, messageBuffer := ['a'] }
        ['b', '\n', ' ', '\n', 'c'] =
      specLinewise (fun _ => none)
        { socketConnected := true, authenticated := true, messageBuffer := ['a'] }
        ['b', '\n', ' ', '\n', 'c']
    ∧ lineHandled (fun _ => none)
        ({ socketConnected := true, authenticated := true, messageBuffer := ['a'] },
          noEffects) ['x'] =
      ({ socketConnected := true, authenticated := true, messageBuffer := ['a'] },
        noEffects) :=
  ⟨C10_line_buffering.1 (fun _ => none) _ _,
   C10_line_buffering.2 (fun _ => none) _ ['x'] (Or.inr rfl)⟩
